import Mathlib

/-!
Verification of the apparel-chatbot search backend.

A shallow embedding of the retrieval core of `app.py`:

* the filter compiler `get_chromadb_filters` (a closure inside `find_apparel`),
* the three-stage retrieval engine `find_apparel`,
* the slice of the HTTP handler `find_apparel_api` that validates `user_query`
  before delegating to `find_apparel`.

Python dictionaries used as ChromaDB `where`-clauses are modelled by the
predicate tree `WPred`; the empty dictionary `{}` ("no predicate") is modelled
by `none : Option WPred`.  External collaborators (the OpenAI embedding client
and the ChromaDB collection) are modelled as oracles passed in as arguments,
and every outbound call the engine makes is recorded in a `Trace` so that
claims about which calls happen (and in which order) can be stated.
-/

/-- ChromaDB `where`-clause tree: equality leaves (`{"field": "value"}` or
`{"field": {"$eq": "value"}}` — both are equality in ChromaDB), and n-ary
`$or` / `$and` nodes, exactly the shapes `get_chromadb_filters` builds. -/
inductive WPred where
  | eq (field : String) (value : String)
  | or (ps : List WPred)
  | and (ps : List WPred)
deriving Repr

/-- Python truthiness of an optional string argument (`if g:`):
`None` and the empty string are falsy, every other string is truthy. -/
def truthy : Option String → Bool
  | none => false
  | some s => !s.isEmpty

/-- Models Python `str.lower()` on a single character, restricted to ASCII
(identity on everything else).  Every string constant the program compares
against is ASCII, so this restriction is faithful on all inputs that matter. -/
def charLower (ch : Char) : Char :=
  match ch with
  | 'A' => 'a' | 'B' => 'b' | 'C' => 'c' | 'D' => 'd' | 'E' => 'e' | 'F' => 'f'
  | 'G' => 'g' | 'H' => 'h' | 'I' => 'i' | 'J' => 'j' | 'K' => 'k' | 'L' => 'l'
  | 'M' => 'm' | 'N' => 'n' | 'O' => 'o' | 'P' => 'p' | 'Q' => 'q' | 'R' => 'r'
  | 'S' => 's' | 'T' => 't' | 'U' => 'u' | 'V' => 'v' | 'W' => 'w' | 'X' => 'x'
  | 'Y' => 'y' | 'Z' => 'z'
  | c => c

/-- Models Python `str.lower()` (ASCII; see `charLower`). -/
def pyLower (s : String) : String := ⟨s.data.map charLower⟩

/-- Constant `VALID_GENDERS` from `app.py`. -/
def VALID_GENDERS : List String := ["male", "female", "unisex"]

/-- Constant `VALID_MASTER_CATEGORIES` from `app.py`. -/
def VALID_MASTER_CATEGORIES : List String :=
  ["top", "bottom", "accessory", "footwear", "top & foot combined"]

/-- Constant `VALID_SUBCATEGORIES` from `app.py` (note the upper-case sentinel `"N/A"`). -/
def VALID_SUBCATEGORIES : List String :=
  ["shirt", "t-shirt", "polo shirt", "dress", "gown", "shorts", "jeans",
   "sweater", "top", "flats", "heels", "sneakers", "boots", "sandals",
   "jewelry", "bag", "hat", "scarf", "belt", "sunglasses", "N/A"]

/-- Constant `VALID_SEASONS` from `app.py`. -/
def VALID_SEASONS : List String := ["summer", "winter", "spring", "fall", "all-season"]

/-- Constant `VALID_SLEEVE_LENGTHS` from `app.py`. -/
def VALID_SLEEVE_LENGTHS : List String :=
  ["full sleeve", "half sleeve", "quarter sleeve", "sleeveless", "strapless", "N/A"]

/-- Constant `VALID_ITEM_LENGTHS` from `app.py`. -/
def VALID_ITEM_LENGTHS : List String :=
  ["mini", "short", "knee-length", "midi", "maxi", "full length", "N/A"]

/-- Constant `VALID_CATEGORIES` from `app.py`. -/
def VALID_CATEGORIES : List String :=
  ["dresses", "shirts", "jeans", "tops", "footwear", "accessories", "sweaters",
   "shorts", "pants"]

/-- The `--- GENDER LOGIC ---` block of `get_chromadb_filters`: the list of
filters it appends to `individual_filters` for the `g` argument. -/
def genderFilters (g : Option String) : List WPred :=
  match g with
  | none => []
  | some g =>
    if g.isEmpty then []
    else if pyLower g = "male" ∨ pyLower g = "female" then
      [WPred.or [WPred.eq "gender" (pyLower g), WPred.eq "gender" "unisex"]]
    else if pyLower g = "unisex" then
      [WPred.eq "gender" "unisex"]
    else []

/-- The `master_category` block of `get_chromadb_filters`. -/
def masterCategoryFilters (mc : Option String) : List WPred :=
  match mc with
  | none => []
  | some mc =>
    if mc.isEmpty then []
    else if pyLower mc ∈ VALID_MASTER_CATEGORIES then
      [WPred.eq "master_category" (pyLower mc)]
    else []

/-- The `--- CATEGORY LOGIC ---` block of `get_chromadb_filters`. -/
def categoryFilters (cat : Option String) : List WPred :=
  match cat with
  | none => []
  | some cat =>
    if cat.isEmpty then []
    else if pyLower cat ∈ VALID_CATEGORIES then
      [WPred.eq "category" (pyLower cat)]
    else []

/-- The `--- SUBCATEGORY LOGIC ---` block of `get_chromadb_filters`.
Python's set membership is case-sensitive, so `pyLower sc ∈ VALID_SUBCATEGORIES`
mirrors `sc.lower() in VALID_SUBCATEGORIES` exactly, upper-case `"N/A"` member
included. -/
def subcategoryFilters (sc : Option String) : List WPred :=
  match sc with
  | none => []
  | some sc =>
    if sc.isEmpty then []
    else if pyLower sc ∈ VALID_SUBCATEGORIES ∧ pyLower sc ≠ "n/a" then
      [WPred.eq "subcategory" (pyLower sc)]
    else []

/-- The `color` block of `get_chromadb_filters`:
`{"color": {"$eq": c.lower()}}` for any truthy `c`. -/
def colorFilters (c : Option String) : List WPred :=
  match c with
  | none => []
  | some c => if c.isEmpty then [] else [WPred.eq "color" (pyLower c)]

/-- The `--- SEASON LOGIC ---` block of `get_chromadb_filters`.  The list
comprehension `[s for s in VALID_SEASONS if s != "n/a"]` is kept verbatim,
including its comparison against `"n/a"` (which no member of `VALID_SEASONS`
equals). -/
def seasonFilters (s : Option String) : List WPred :=
  match s with
  | none => []
  | some s =>
    if s.isEmpty then []
    else if pyLower s = "all-season" then
      [WPred.or ((VALID_SEASONS.filter (fun v => v ≠ "n/a")).map
        (fun v => WPred.eq "season" v))]
    else if pyLower s ∈ VALID_SEASONS then
      [WPred.eq "season" (pyLower s)]
    else []

/-- The `sleeve_length` block of `get_chromadb_filters`. -/
def sleeveLengthFilters (sl : Option String) : List WPred :=
  match sl with
  | none => []
  | some sl =>
    if sl.isEmpty then []
    else if pyLower sl ∈ VALID_SLEEVE_LENGTHS ∧ pyLower sl ≠ "n/a" then
      [WPred.eq "sleeve_length" (pyLower sl)]
    else []

/-- The `item_length` block of `get_chromadb_filters`. -/
def itemLengthFilters (il : Option String) : List WPred :=
  match il with
  | none => []
  | some il =>
    if il.isEmpty then []
    else if pyLower il ∈ VALID_ITEM_LENGTHS ∧ pyLower il ≠ "n/a" then
      [WPred.eq "item_length" (pyLower il)]
    else []

/-- The `individual_filters` list built by `get_chromadb_filters`, in the
source's append order: gender, master_category, category, subcategory, color,
season, sleeve_length, item_length. -/
def individual_filters (g mc sc c s sl il cat : Option String) : List WPred :=
  genderFilters g ++ masterCategoryFilters mc ++ categoryFilters cat ++
  subcategoryFilters sc ++ colorFilters c ++ seasonFilters s ++
  sleeveLengthFilters sl ++ itemLengthFilters il

/-- The final combination step of `get_chromadb_filters`: empty list → `{}`
(no predicate), singleton → that predicate alone, otherwise `{"$and": fs}`. -/
def combineFilters : List WPred → Option WPred
  | [] => none
  | [f] => some f
  | fs => some (WPred.and fs)

/-- Function `get_chromadb_filters(g, mc, sc, c, s, sl, il, cat)` from `app.py`:
compile the eight optional filter arguments to an optional ChromaDB
`where`-clause. -/
def get_chromadb_filters (g mc sc c s sl il cat : Option String) : Option WPred :=
  combineFilters (individual_filters g mc sc c s sl il cat)




/-! ## The staged retrieval engine `find_apparel` -/

/-- A product metadata record as returned by the ChromaDB query (an opaque
string-keyed mapping; the engine never inspects it beyond truthiness, so an
association list suffices). -/
abbrev Metadata := List (String × String)

/-- The ChromaDB collection, as the engine sees it inside one `find_apparel`
call: the query embedding and `n_results=10` are fixed for the whole call, so
a stage's query is determined by its `where`-clause.  The oracle returns the
`metadatas` field of the response (one row of records per query embedding), or
the exception text when the query raises. -/
abbrev Store := Option WPred → Except String (List (List Metadata))

/-- The calls a `find_apparel` invocation makes to its external collaborators:
how many embedding requests it issued, and the store queries it issued, in
order, as (stage number, `where`-clause) pairs. -/
structure Trace where
  embedCalls : Nat
  storeQueries : List (Nat × Option WPred)
deriving Repr

/-- The dictionary `find_apparel` returns: always a `"products"` list, plus a
`"message"` string on the failure paths (`none` models an absent key). -/
structure SearchOutcome where
  products : List Metadata
  message : Option String := none
deriving Repr

/-- The result-extraction idiom repeated at every stage:
`if results.get('metadatas') and results['metadatas'] and results['metadatas'][0]:
found_products = results['metadatas'][0] else: found_products = []`. -/
def extractProducts (metadatas : List (List Metadata)) : List Metadata :=
  match metadatas with
  | [] => []
  | row :: _ => row

/-- The eight optional filter arguments of the Python `find_apparel`
signature, bundled. -/
structure FilterRequest where
  gender : Option String := none
  master_category : Option String := none
  subcategory : Option String := none
  color : Option String := none
  season : Option String := none
  sleeve_length : Option String := none
  item_length : Option String := none
  category : Option String := none
deriving Repr

/-- Stage 1's `where`-clause: `get_chromadb_filters(gender, master_category,
subcategory, color, season, sleeve_length, item_length, category)`. -/
def compileRequest (r : FilterRequest) : Option WPred :=
  get_chromadb_filters r.gender r.master_category r.subcategory r.color
    r.season r.sleeve_length r.item_length r.category

/-- Stage 2's `where`-clause: `get_chromadb_filters(gender, master_category,
None, None, season, sleeve_length, None, category)`. -/
def stage2Filters (r : FilterRequest) : Option WPred :=
  get_chromadb_filters r.gender r.master_category none none
    r.season r.sleeve_length none r.category

/-- Stage 3's `where`-clause: `get_chromadb_filters(gender, None, None, None,
season, None, None, None)`. -/
def stage3Filters (r : FilterRequest) : Option WPred :=
  get_chromadb_filters r.gender none none none r.season none none none

/-- The stage-2 guard
`if current_filters or (not gender and not season and not master_category and
not category):`. -/
def stage2cond (r : FilterRequest) : Bool :=
  (stage2Filters r).isSome ||
    (!truthy r.gender && !truthy r.season &&
     !truthy r.master_category && !truthy r.category)

/-- The tail of `find_apparel` from `--- Stage 3 ---` on: run stage 3 when its
`where`-clause is non-empty (`if current_filters:`), otherwise skip it; in
either case fall through to `return {"products": []}` when nothing is found.
`t` is the trace accumulated by the earlier stages. -/
def stage3Run (r : FilterRequest) (store : Store) (t : Trace) :
    SearchOutcome × Trace :=
  let f3 := stage3Filters r
  if f3.isSome then
    match store f3 with
    | .error e =>
      (⟨[], some ("Error in Stage 3 search: " ++ e)⟩,
       ⟨t.embedCalls, t.storeQueries ++ [(3, f3)]⟩)
    | .ok res3 =>
      let found3 := extractProducts res3
      if found3.isEmpty then
        (⟨[], none⟩, ⟨t.embedCalls, t.storeQueries ++ [(3, f3)]⟩)
      else
        (⟨found3, none⟩, ⟨t.embedCalls, t.storeQueries ++ [(3, f3)]⟩)
  else
    (⟨[], none⟩, t)

/-- Function `find_apparel` from `app.py`.  `storeInit` models whether
`product_collection` is non-`None`; `embed` models the one
`client.embeddings.create(...)` call for `user_query` (the query text itself
is only ever passed to the provider, so it is absorbed into the oracle);
`store` models `product_collection.query(...)` for the fixed embedding and
`n_results=10`.  Every Python `except` branch is a `.error` case of an
oracle, so the function is total: it always returns an outcome dictionary. -/
def find_apparel (storeInit : Bool) (embed : Except String Unit)
    (store : Store) (r : FilterRequest) : SearchOutcome × Trace :=
  if !storeInit then
    (⟨[], some "ChromaDB not initialized. Please run populate_chroma.py."⟩,
     ⟨0, []⟩)
  else
    match embed with
    | .error e => (⟨[], some ("Error processing query: " ++ e)⟩, ⟨1, []⟩)
    | .ok _ =>
      let f1 := compileRequest r
      match store f1 with
      | .error e =>
        (⟨[], some ("Error in Stage 1 search: " ++ e)⟩, ⟨1, [(1, f1)]⟩)
      | .ok res1 =>
        let found1 := extractProducts res1
        if found1.isEmpty then
          let f2 := stage2Filters r
          if stage2cond r then
            match store f2 with
            | .error e =>
              (⟨[], some ("Error in Stage 2 search: " ++ e)⟩,
               ⟨1, [(1, f1), (2, f2)]⟩)
            | .ok res2 =>
              let found2 := extractProducts res2
              if found2.isEmpty then
                stage3Run r store ⟨1, [(1, f1), (2, f2)]⟩
              else
                (⟨found2, none⟩, ⟨1, [(1, f1), (2, f2)]⟩)
          else
            stage3Run r store ⟨1, [(1, f1)]⟩
        else
          (⟨found1, none⟩, ⟨1, [(1, f1)]⟩)

/-! ## The `/api/find_apparel` handler slice -/

/-- A Flask error response `jsonify({"error": ...}), status`. -/
structure ApiError where
  status : Nat
  error : String
deriving Repr

/-- The input-validation slice of `find_apparel_api`, after the request body
has been unwrapped (the JSON / `apparel_search_data` plumbing is HTTP framing,
out of scope): `user_query = arguments.get('user_query')`, then
`if not user_query: return jsonify({"error": ...}), 400` — the embedding
provider and the store are only reached through `find_apparel`, so a rejected
request has an empty trace. -/
def find_apparel_api (user_query : Option String) (r : FilterRequest)
    (storeInit : Bool) (embed : Except String Unit) (store : Store) :
    Except ApiError SearchOutcome × Trace :=
  if !truthy user_query then
    (.error ⟨400, "Missing 'user_query' in parsed arguments"⟩, ⟨0, []⟩)
  else
    let (o, t) := find_apparel storeInit embed store r
    (.ok o, t)




/-! ## Equality leaves of a compiled predicate, and spec-side notions -/

mutual
/-- All equality leaves `(field, value)` of a `where`-clause tree. -/
def WPred.leaves : WPred → List (String × String)
  | .eq f v => [(f, v)]
  | .or ps => leavesList ps
  | .and ps => leavesList ps

/-- Leaves of a list of `where`-clause trees, in order. -/
def leavesList : List WPred → List (String × String)
  | [] => []
  | p :: ps => p.leaves ++ leavesList ps
end

/-- Leaves of an optional `where`-clause (`{}` has none). -/
def leavesOpt : Option WPred → List (String × String)
  | none => []
  | some p => p.leaves

/-- What the spec allows an equality leaf compiled from inputs with color
argument `c` to look like: a valid value from the owning field's valid set,
never the `"n/a"` / `"N/A"` sentinel — except on `color`, which carries the
lowercased input string whatever it is. -/
def leafOK (c : Option String) (fv : String × String) : Prop :=
  (fv.1 = "gender" ∧ fv.2 ∈ VALID_GENDERS) ∨
  (fv.1 = "master_category" ∧ fv.2 ∈ VALID_MASTER_CATEGORIES) ∨
  (fv.1 = "category" ∧ fv.2 ∈ VALID_CATEGORIES) ∨
  (fv.1 = "subcategory" ∧ fv.2 ∈ VALID_SUBCATEGORIES ∧
    fv.2 ≠ "n/a" ∧ fv.2 ≠ "N/A") ∨
  (fv.1 = "season" ∧ fv.2 ∈ VALID_SEASONS) ∨
  (fv.1 = "sleeve_length" ∧ fv.2 ∈ VALID_SLEEVE_LENGTHS ∧
    fv.2 ≠ "n/a" ∧ fv.2 ≠ "N/A") ∨
  (fv.1 = "item_length" ∧ fv.2 ∈ VALID_ITEM_LENGTHS ∧
    fv.2 ≠ "n/a" ∧ fv.2 ≠ "N/A") ∨
  (fv.1 = "color" ∧ ∃ c0, c = some c0 ∧ c0.isEmpty = false ∧ fv.2 = pyLower c0)

/-- The spec's stage-2 field subset (§4.2): keep `gender`, `master_category`,
`season`, `category`, `sleeve_length`; drop `subcategory`, `color`,
`item_length`. -/
def relaxStage2 (r : FilterRequest) : FilterRequest :=
  { r with subcategory := none, color := none, item_length := none }

/-- The spec's stage-3 field subset (§4.2): keep only `gender`, `season`. -/
def relaxStage3 (r : FilterRequest) : FilterRequest :=
  { gender := r.gender, season := r.season }

/-! ## Helper lemmas -/

theorem leavesList_append (a b : List WPred) :
    leavesList (a ++ b) = leavesList a ++ leavesList b := by
  induction a with
  | nil => simp [leavesList]
  | cons p ps ih => simp [leavesList, ih]

theorem leavesOpt_combine (fs : List WPred) :
    leavesOpt (combineFilters fs) = leavesList fs := by
  match fs with
  | [] => rfl
  | [f] => simp [combineFilters, leavesOpt, leavesList]
  | f :: g :: fs => simp [combineFilters, leavesOpt, WPred.leaves]

theorem charLower_ne_N (a : Char) : charLower a ≠ 'N' := by
  unfold charLower
  split <;> simp_all

theorem pyLower_ne_NA (s : String) : pyLower s ≠ "N/A" := by
  obtain ⟨l⟩ := s
  intro h
  have hd : l.map charLower = ['N', '/', 'A'] := by
    have : "N/A" = String.mk ['N', '/', 'A'] := rfl
    rw [this] at h
    exact congrArg String.data h
  match l, hd with
  | a :: t, hd =>
    simp only [List.map_cons, List.cons.injEq] at hd
    exact charLower_ne_N a hd.1

theorem leavesList_eq_map (f : String) (lst : List String) :
    leavesList (lst.map (fun v => WPred.eq f v)) = lst.map (fun v => (f, v)) := by
  induction lst with
  | nil => rfl
  | cons a t ih => simp [leavesList, WPred.leaves, ih]

theorem stage3Run_storeQueries (r : FilterRequest) (store : Store) (t : Trace) :
    (stage3Run r store t).2.storeQueries = t.storeQueries ∨
    ((stage3Filters r).isSome = true ∧
      (stage3Run r store t).2.storeQueries =
        t.storeQueries ++ [(3, stage3Filters r)]) := by
  unfold stage3Run
  by_cases h : (stage3Filters r).isSome
  · cases hs : store (stage3Filters r) with
    | error e => right; simp [h, hs]
    | ok res3 =>
      by_cases h3 : (extractProducts res3).isEmpty <;>
        simp [h, hs, h3]
  · left; simp [h]

theorem stage3Run_outcome (r : FilterRequest) (store : Store) (t : Trace) :
    (stage3Run r store t).1.message = none ∨
    ((stage3Run r store t).1.products = [] ∧
      ∃ e, (stage3Run r store t).1.message =
            some ("Error in Stage 3 search: " ++ e) ∧
          store (stage3Filters r) = .error e) := by
  unfold stage3Run
  by_cases h : (stage3Filters r).isSome
  · cases hs : store (stage3Filters r) with
    | error e => right; simp [h, hs]
    | ok res3 =>
      by_cases h3 : (extractProducts res3).isEmpty <;>
        simp [h, hs, h3]
  · left; simp [h]

theorem find_storeQueries (r : FilterRequest) (store : Store) :
    (find_apparel true (.ok ()) store r).2.storeQueries = [(1, compileRequest r)] ∨
    (find_apparel true (.ok ()) store r).2.storeQueries =
      [(1, compileRequest r), (2, stage2Filters r)] ∨
    ((stage3Filters r).isSome = true ∧
      ((find_apparel true (.ok ()) store r).2.storeQueries =
        [(1, compileRequest r), (3, stage3Filters r)] ∨
       (find_apparel true (.ok ()) store r).2.storeQueries =
        [(1, compileRequest r), (2, stage2Filters r), (3, stage3Filters r)])) := by
  unfold find_apparel
  cases h1 : store (compileRequest r) with
  | error e => simp [h1]
  | ok res1 =>
    by_cases he1 : (extractProducts res1).isEmpty
    · by_cases hc : stage2cond r
      · cases h2 : store (stage2Filters r) with
        | error e => simp [h1, he1, hc, h2]
        | ok res2 =>
          by_cases he2 : (extractProducts res2).isEmpty
          · simp only [h1, he1, hc, h2, he2, Bool.not_true, if_false, if_true,
              ite_true, ite_false]
            rcases stage3Run_storeQueries r store ⟨1,
                [(1, compileRequest r), (2, stage2Filters r)]⟩ with h3 | ⟨hs, h3⟩ <;>
              simp_all
          · simp [h1, he1, hc, h2, he2]
      · simp only [h1, he1, hc, Bool.not_true, if_false, if_true, ite_true,
          ite_false]
        rcases stage3Run_storeQueries r store ⟨1, [(1, compileRequest r)]⟩ with
          h3 | ⟨hs, h3⟩ <;> simp_all
    · simp [h1, he1]

/-! ## Claim C1 -/

/-- C1, counterexample: with `season="all-season"` (and nothing else), the
compiled predicate DOES contain an equality leaf on the token `"all-season"` —
the comprehension filters `"n/a"` out of `VALID_SEASONS`, which excludes
nothing, so the pseudo-value itself stays in the disjunction. -/
theorem all_season_leaf_counterexample :
    ("season", "all-season") ∈ leavesOpt
      (get_chromadb_filters none none none none (some "all-season")
        none none none) := by decide

/-- C1 (amended): for every request whose season is `"all-season"`
(case-insensitively), the compiled predicate contains an equality leaf
`season == v` for EVERY `v` in `VALID_SEASONS` — the four concrete seasons
and the `"all-season"` pseudo-value itself. -/
theorem all_season_full_disjunction
    (g mc sc c sl il cat : Option String) (s : String)
    (h1 : s.isEmpty = false) (h2 : pyLower s = "all-season") :
    ∀ v ∈ VALID_SEASONS,
      ("season", v) ∈ leavesOpt (get_chromadb_filters g mc sc c (some s) sl il cat) := by
  intro v hv
  have hseason : ("season", v) ∈ leavesList (seasonFilters (some s)) := by
    have hfilter : VALID_SEASONS.filter (fun v => v ≠ "n/a") = VALID_SEASONS := by
      decide
    simp [seasonFilters, h1, h2, hfilter, leavesList, WPred.leaves,
      leavesList_eq_map]
    simpa [VALID_SEASONS] using hv
  unfold get_chromadb_filters
  rw [leavesOpt_combine]
  unfold individual_filters
  simp only [leavesList_append, List.mem_append]
  tauto

/-- C1 (amended), witness: instantiated at `season="ALL-SEASON"` and
`v := "all-season"`. -/
theorem all_season_full_disjunction_witness :
    ("season", "all-season") ∈ leavesOpt
      (get_chromadb_filters none none none none (some "ALL-SEASON")
        none none none) :=
  all_season_full_disjunction none none none none none none none
    "ALL-SEASON" rfl rfl "all-season" (by decide)

/-! ## Claim C2 -/

/-- C2, counterexample: `gender="xyz"` (supplied but invalid, hence dropped)
makes stage 2's predicate empty, yet stage 2 is NOT attempted — the whole run
issues only the stage-1 query.  The "stage 2 skip" branch is reachable. -/
theorem stage2_skip_counterexample :
    stage2Filters ⟨some "xyz", none, none, none, none, none, none, none⟩ = none ∧
    truthy (some "xyz") = true ∧
    (find_apparel true (.ok ()) (fun _ => .ok [])
        ⟨some "xyz", none, none, none, none, none, none, none⟩).2.storeQueries =
      [(1, none)] :=
  ⟨rfl, rfl, rfl⟩

/-- C2 (amended): after an empty stage 1, stage 2 is executed iff
`stage2cond` holds, i.e. iff its compiled predicate is non-empty OR none of
gender, season, master_category, category was supplied; when the predicate is
empty because one of those supplied values was invalid and dropped, stage 2
is skipped (no stage-2 query is ever issued). -/
theorem stage2_guard (r : FilterRequest) (store : Store)
    (m1 : List (List Metadata))
    (h1 : store (compileRequest r) = .ok m1)
    (he : (extractProducts m1).isEmpty = true) :
    (stage2cond r = true →
      (2, stage2Filters r) ∈
        (find_apparel true (.ok ()) store r).2.storeQueries) ∧
    (stage2cond r = false →
      ∀ q ∈ (find_apparel true (.ok ()) store r).2.storeQueries, q.1 ≠ 2) := by
  constructor
  · intro hc
    unfold find_apparel
    cases h2 : store (stage2Filters r) with
    | error e => simp [h1, he, hc, h2]
    | ok res2 =>
      by_cases he2 : (extractProducts res2).isEmpty
      · simp only [h1, he, hc, h2, he2, if_true, ite_true]
        rcases stage3Run_storeQueries r store
            ⟨1, [(1, compileRequest r), (2, stage2Filters r)]⟩ with h3 | ⟨_, h3⟩ <;>
          simp [h3]
      · simp [h1, he, hc, h2, he2]
  · intro hc q hq
    unfold find_apparel at hq
    simp [h1, he, hc] at hq
    rcases stage3Run_storeQueries r store ⟨1, [(1, compileRequest r)]⟩ with
      h3 | ⟨_, h3⟩ <;> rw [h3] at hq
    · simp at hq
      simp [hq]
    · simp at hq
      rcases hq with hq | hq <;> simp [hq]

/-- C2 (amended), witness: with no filters at all, stage 1 empty, the
stage-2 query (empty predicate) is issued. -/
theorem stage2_guard_witness :
    (2, stage2Filters ⟨none, none, none, none, none, none, none, none⟩) ∈
      (find_apparel true (.ok ()) (fun _ => .ok [])
        ⟨none, none, none, none, none, none, none, none⟩).2.storeQueries :=
  (stage2_guard ⟨none, none, none, none, none, none, none, none⟩
    (fun _ => .ok []) [] rfl rfl).1 rfl

/-! ## Claim C3 -/

/-- C3: a store failure at any stage aborts the retrieval immediately: the
outcome is the error dictionary naming the failing stage, the trace stops at
the failing query (no later stage is issued), and the failure is never
converted into a plain `message`-less "no results" outcome. -/
theorem store_failure_aborts (r : FilterRequest) (store : Store) (e : String) :
    (store (compileRequest r) = .error e →
      find_apparel true (.ok ()) store r =
        (⟨[], some ("Error in Stage 1 search: " ++ e)⟩,
         ⟨1, [(1, compileRequest r)]⟩)) ∧
    (∀ m1, store (compileRequest r) = .ok m1 →
      (extractProducts m1).isEmpty = true → stage2cond r = true →
      store (stage2Filters r) = .error e →
      find_apparel true (.ok ()) store r =
        (⟨[], some ("Error in Stage 2 search: " ++ e)⟩,
         ⟨1, [(1, compileRequest r), (2, stage2Filters r)]⟩)) ∧
    (∀ m1 m2, store (compileRequest r) = .ok m1 →
      (extractProducts m1).isEmpty = true → stage2cond r = true →
      store (stage2Filters r) = .ok m2 →
      (extractProducts m2).isEmpty = true → (stage3Filters r).isSome = true →
      store (stage3Filters r) = .error e →
      find_apparel true (.ok ()) store r =
        (⟨[], some ("Error in Stage 3 search: " ++ e)⟩,
         ⟨1, [(1, compileRequest r), (2, stage2Filters r),
              (3, stage3Filters r)]⟩)) := by
  refine ⟨fun h1 => ?_, fun m1 h1 he1 hc h2 => ?_,
    fun m1 m2 h1 he1 hc h2 he2 hs3 h3 => ?_⟩
  · simp [find_apparel, h1]
  · simp [find_apparel, h1, he1, hc, h2]
  · simp [find_apparel, stage3Run, h1, he1, hc, h2, he2, hs3, h3]

/-- C3, witness: the three conjuncts instantiated with concrete stores that
fail at stage 1, stage 2, and stage 3 respectively. -/
theorem store_failure_aborts_witness :
    (find_apparel true (.ok ()) (fun _ => .error "boom")
        ⟨none, none, none, none, none, none, none, none⟩ =
      (⟨[], some "Error in Stage 1 search: boom"⟩, ⟨1, [(1, none)]⟩)) ∧
    (find_apparel true (.ok ())
        (fun f => match f with | none => .error "boom" | some _ => .ok [])
        ⟨none, none, none, some "red", none, none, none, none⟩ =
      (⟨[], some "Error in Stage 2 search: boom"⟩,
       ⟨1, [(1, some (WPred.eq "color" "red")), (2, none)]⟩)) ∧
    (find_apparel true (.ok ())
        (fun f => match f with
          | some (WPred.or _) => .error "boom"
          | _ => .ok [])
        ⟨some "male", some "top", none, none, none, none, none, none⟩ =
      (⟨[], some "Error in Stage 3 search: boom"⟩,
       ⟨1, [(1, some (WPred.and [WPred.or [WPred.eq "gender" "male",
                                            WPred.eq "gender" "unisex"],
                                  WPred.eq "master_category" "top"])),
            (2, some (WPred.and [WPred.or [WPred.eq "gender" "male",
                                            WPred.eq "gender" "unisex"],
                                  WPred.eq "master_category" "top"])),
            (3, some (WPred.or [WPred.eq "gender" "male",
                                 WPred.eq "gender" "unisex"]))]⟩)) :=
  ⟨(store_failure_aborts ⟨none, none, none, none, none, none, none, none⟩
      (fun _ => .error "boom") "boom").1 rfl,
   (store_failure_aborts ⟨none, none, none, some "red", none, none, none, none⟩
      (fun f => match f with | none => .error "boom" | some _ => .ok [])
      "boom").2.1 [] rfl rfl rfl rfl,
   (store_failure_aborts ⟨some "male", some "top", none, none, none, none,
        none, none⟩
      (fun f => match f with
        | some (WPred.or _) => .error "boom"
        | _ => .ok [])
      "boom").2.2 [] [] rfl rfl rfl rfl rfl rfl rfl⟩

/-! ## Claim C4 -/

/-- C4: the gender field compiles case-insensitively: `"male"`/`"female"`
contribute `(gender == value) OR (gender == "unisex")`, `"unisex"` contributes
the single equality `gender == "unisex"`, and any other value contributes
nothing to the filter list, whatever the other seven arguments are. -/
theorem gender_rule (g : String) (mc sc c s sl il cat : Option String)
    (h : g.isEmpty = false) :
    ((pyLower g = "male" ∨ pyLower g = "female") →
      individual_filters (some g) mc sc c s sl il cat =
        WPred.or [WPred.eq "gender" (pyLower g), WPred.eq "gender" "unisex"] ::
          individual_filters none mc sc c s sl il cat) ∧
    (pyLower g = "unisex" →
      individual_filters (some g) mc sc c s sl il cat =
        WPred.eq "gender" "unisex" ::
          individual_filters none mc sc c s sl il cat) ∧
    (pyLower g ≠ "male" → pyLower g ≠ "female" → pyLower g ≠ "unisex" →
      individual_filters (some g) mc sc c s sl il cat =
        individual_filters none mc sc c s sl il cat) := by
  refine ⟨fun hmf => ?_, fun hu => ?_, fun hm hf hu => ?_⟩
  · rcases hmf with h' | h' <;>
      simp [individual_filters, genderFilters, h, h']
  · simp [individual_filters, genderFilters, h, hu]
  · simp [individual_filters, genderFilters, h, hm, hf, hu]

/-- C4, witness: `gender="MALE"` (upper case) compiles to the male-or-unisex
disjunction. -/
theorem gender_rule_witness :
    individual_filters (some "MALE") none none none none none none none =
      [WPred.or [WPred.eq "gender" "male", WPred.eq "gender" "unisex"]] :=
  (gender_rule "MALE" none none none none none none none rfl).1
    (Or.inl rfl)

/-! ## Claim C5 -/

/-- C5: the staged engine short-circuits — if the store returns at least one
metadata record at stage 1, that result set is returned at once and no
stage-2 or stage-3 query is issued; likewise a non-empty stage 2 means no
stage-3 query. -/
theorem stage_short_circuit (r : FilterRequest) (store : Store)
    (m : List (List Metadata)) :
    (store (compileRequest r) = .ok m → (extractProducts m).isEmpty = false →
      find_apparel true (.ok ()) store r =
        (⟨extractProducts m, none⟩, ⟨1, [(1, compileRequest r)]⟩)) ∧
    (∀ m1, store (compileRequest r) = .ok m1 →
      (extractProducts m1).isEmpty = true → stage2cond r = true →
      store (stage2Filters r) = .ok m → (extractProducts m).isEmpty = false →
      find_apparel true (.ok ()) store r =
        (⟨extractProducts m, none⟩,
         ⟨1, [(1, compileRequest r), (2, stage2Filters r)]⟩)) := by
  refine ⟨fun h1 hne => ?_, fun m1 h1 he1 hc h2 hne => ?_⟩
  · simp [find_apparel, h1, hne]
  · simp [find_apparel, h1, he1, hc, h2, hne]

/-- C5, witness: a store holding one record answers stage 1; the trace shows
exactly one query. -/
theorem stage_short_circuit_witness :
    find_apparel true (.ok ()) (fun _ => .ok [[[("id", "p1")]]])
        ⟨some "male", none, none, none, none, none, none, none⟩ =
      (⟨[[("id", "p1")]], none⟩,
       ⟨1, [(1, some (WPred.or [WPred.eq "gender" "male",
                                 WPred.eq "gender" "unisex"]))]⟩) :=
  (stage_short_circuit ⟨some "male", none, none, none, none, none, none, none⟩
    (fun _ => .ok [[[("id", "p1")]]]) [[[("id", "p1")]]]).1 rfl rfl

/-! ## Claim C6 -/

/-- C6: stage 2's predicate is the compiler applied to the request with
`subcategory`, `color`, `item_length` dropped, and stage 3's predicate is the
compiler applied to the request with everything but `gender` and `season`
dropped — and every stage-2 / stage-3 query the engine issues carries exactly
that predicate. -/
theorem stage_field_subsets (r : FilterRequest) (store : Store) :
    stage2Filters r = compileRequest (relaxStage2 r) ∧
    stage3Filters r = compileRequest (relaxStage3 r) ∧
    (∀ f, (2, f) ∈ (find_apparel true (.ok ()) store r).2.storeQueries →
      f = compileRequest (relaxStage2 r)) ∧
    (∀ f, (3, f) ∈ (find_apparel true (.ok ()) store r).2.storeQueries →
      f = compileRequest (relaxStage3 r)) := by
  refine ⟨rfl, rfl, fun f hf => ?_, fun f hf => ?_⟩
  · rcases find_storeQueries r store with h | h | ⟨_, h | h⟩ <;> rw [h] at hf <;>
      simp at hf
    · exact hf
    · exact hf
  · rcases find_storeQueries r store with h | h | ⟨_, h | h⟩ <;> rw [h] at hf <;>
      simp at hf
    · exact hf
    · exact hf

/-- C6, witness: in a no-filter run the issued stage-2 query carries the
compile of the relaxed (here: empty) request. -/
theorem stage_field_subsets_witness :
    (none : Option WPred) =
      compileRequest (relaxStage2
        ⟨none, none, none, none, none, none, none, none⟩) :=
  (stage_field_subsets ⟨none, none, none, none, none, none, none, none⟩
    (fun _ => .ok [])).2.2.1 none (List.Mem.tail _ (List.Mem.head _))

/-! ## Claim C7 -/

/-- C7: a stage-3 query is issued only with the (non-empty) stage-3
predicate; and when the stage-3 predicate is empty and every issued query
returns no rows, the engine ends with a plain empty, `message`-less outcome —
a valid "no matches" result, not an error. -/
theorem stage3_guard (r : FilterRequest) (store : Store) :
    (∀ f, (3, f) ∈ (find_apparel true (.ok ()) store r).2.storeQueries →
      f = stage3Filters r ∧ f.isSome = true) ∧
    (stage3Filters r = none → (∀ f, store f = .ok []) →
      (find_apparel true (.ok ()) store r).1 = ⟨[], none⟩) := by
  constructor
  · intro f hf
    rcases find_storeQueries r store with h | h | ⟨hs, h | h⟩ <;> rw [h] at hf <;>
      simp at hf
    · exact ⟨hf, hf ▸ hs⟩
    · exact ⟨hf, hf ▸ hs⟩
  · intro h3 hstore
    by_cases hc : stage2cond r <;>
      simp [find_apparel, hstore, hc, stage3Run, h3, extractProducts]

/-- C7, witness: gender valid makes stage 3's predicate non-empty; gender
invalid (and no season) makes the run end in the empty non-error outcome. -/
theorem stage3_guard_witness :
    (stage3Filters ⟨some "male", none, none, none, none, none, none,
        none⟩).isSome = true ∧
    (find_apparel true (.ok ()) (fun _ => .ok [])
      ⟨some "xyz", none, none, none, none, none, none, none⟩).1 =
      ⟨[], none⟩ :=
  ⟨((stage3_guard ⟨some "male", none, none, none, none, none, none, none⟩
      (fun _ => .ok [])).1
      (stage3Filters ⟨some "male", none, none, none, none, none, none, none⟩)
      (List.Mem.tail _ (List.Mem.tail _ (List.Mem.head _)))).2,
   (stage3_guard ⟨some "xyz", none, none, none, none, none, none, none⟩
      (fun _ => .ok [])).2 rfl (fun _ => rfl)⟩

/-! ## Claim C8 -/

theorem genderFilters_leafOK {g : Option String} {f v : String}
    (h : (f, v) ∈ leavesList (genderFilters g)) :
    f = "gender" ∧ v ∈ VALID_GENDERS := by
  rcases g with _ | g
  · simp [genderFilters, leavesList] at h
  · by_cases he : g.isEmpty
    · simp [genderFilters, he, leavesList] at h
    · by_cases h1 : (pyLower g = "male" ∨ pyLower g = "female")
      · simp [genderFilters, he, h1, leavesList, WPred.leaves] at h
        rcases h with ⟨hf, hv⟩ | ⟨hf, hv⟩
        · exact ⟨hf, by rcases h1 with hm | hm <;> simp [VALID_GENDERS, hv, hm]⟩
        · exact ⟨hf, by simp [VALID_GENDERS, hv]⟩
      · by_cases h2 : pyLower g = "unisex"
        · simp [genderFilters, he, h1, h2, leavesList, WPred.leaves] at h
          exact ⟨h.1, by simp [VALID_GENDERS, h.2]⟩
        · simp [genderFilters, he, h1, h2, leavesList] at h

theorem masterCategoryFilters_leafOK {mc : Option String} {f v : String}
    (h : (f, v) ∈ leavesList (masterCategoryFilters mc)) :
    f = "master_category" ∧ v ∈ VALID_MASTER_CATEGORIES := by
  rcases mc with _ | mc
  · simp [masterCategoryFilters, leavesList] at h
  · by_cases he : mc.isEmpty
    · simp [masterCategoryFilters, he, leavesList] at h
    · by_cases hmem : pyLower mc ∈ VALID_MASTER_CATEGORIES
      · simp [masterCategoryFilters, he, hmem, leavesList, WPred.leaves] at h
        exact ⟨h.1, h.2 ▸ hmem⟩
      · simp [masterCategoryFilters, he, hmem, leavesList] at h

theorem categoryFilters_leafOK {cat : Option String} {f v : String}
    (h : (f, v) ∈ leavesList (categoryFilters cat)) :
    f = "category" ∧ v ∈ VALID_CATEGORIES := by
  rcases cat with _ | cat
  · simp [categoryFilters, leavesList] at h
  · by_cases he : cat.isEmpty
    · simp [categoryFilters, he, leavesList] at h
    · by_cases hmem : pyLower cat ∈ VALID_CATEGORIES
      · simp [categoryFilters, he, hmem, leavesList, WPred.leaves] at h
        exact ⟨h.1, h.2 ▸ hmem⟩
      · simp [categoryFilters, he, hmem, leavesList] at h

theorem subcategoryFilters_leafOK {sc : Option String} {f v : String}
    (h : (f, v) ∈ leavesList (subcategoryFilters sc)) :
    f = "subcategory" ∧ v ∈ VALID_SUBCATEGORIES ∧ v ≠ "n/a" ∧ v ≠ "N/A" := by
  rcases sc with _ | sc
  · simp [subcategoryFilters, leavesList] at h
  · by_cases he : sc.isEmpty
    · simp [subcategoryFilters, he, leavesList] at h
    · by_cases hmem : (pyLower sc ∈ VALID_SUBCATEGORIES ∧ pyLower sc ≠ "n/a")
      · obtain ⟨hm1, hm2⟩ := hmem
        simp [subcategoryFilters, he, hm1, hm2, leavesList, WPred.leaves] at h
        exact ⟨h.1, h.2 ▸ hm1, h.2 ▸ hm2, h.2 ▸ pyLower_ne_NA sc⟩
      · simp [subcategoryFilters, he, hmem, leavesList] at h

theorem colorFilters_leafOK {c : Option String} {f v : String}
    (h : (f, v) ∈ leavesList (colorFilters c)) :
    f = "color" ∧ ∃ c0, c = some c0 ∧ c0.isEmpty = false ∧ v = pyLower c0 := by
  rcases c with _ | c
  · simp [colorFilters, leavesList] at h
  · by_cases he : c.isEmpty
    · simp [colorFilters, he, leavesList] at h
    · simp [colorFilters, he, leavesList, WPred.leaves] at h
      exact ⟨h.1, c, rfl, by simp_all, h.2⟩

theorem seasonFilters_leafOK {s : Option String} {f v : String}
    (h : (f, v) ∈ leavesList (seasonFilters s)) :
    f = "season" ∧ v ∈ VALID_SEASONS := by
  rcases s with _ | s
  · simp [seasonFilters, leavesList] at h
  · by_cases he : s.isEmpty
    · simp [seasonFilters, he, leavesList] at h
    · by_cases hall : pyLower s = "all-season"
      · simp [seasonFilters, he, hall, leavesList, WPred.leaves,
          leavesList_eq_map] at h
        rcases h with ⟨hf, hv⟩ | ⟨hf, hv⟩ | ⟨hf, hv⟩ | ⟨hf, hv⟩ | ⟨hf, hv⟩ <;>
          exact ⟨hf, by simp [VALID_SEASONS, hv]⟩
      · by_cases hmem : pyLower s ∈ VALID_SEASONS
        · simp [seasonFilters, he, hall, hmem, leavesList, WPred.leaves] at h
          exact ⟨h.1, h.2 ▸ hmem⟩
        · simp [seasonFilters, he, hall, hmem, leavesList] at h

theorem sleeveLengthFilters_leafOK {sl : Option String} {f v : String}
    (h : (f, v) ∈ leavesList (sleeveLengthFilters sl)) :
    f = "sleeve_length" ∧ v ∈ VALID_SLEEVE_LENGTHS ∧ v ≠ "n/a" ∧ v ≠ "N/A" := by
  rcases sl with _ | sl
  · simp [sleeveLengthFilters, leavesList] at h
  · by_cases he : sl.isEmpty
    · simp [sleeveLengthFilters, he, leavesList] at h
    · by_cases hmem : (pyLower sl ∈ VALID_SLEEVE_LENGTHS ∧ pyLower sl ≠ "n/a")
      · obtain ⟨hm1, hm2⟩ := hmem
        simp [sleeveLengthFilters, he, hm1, hm2, leavesList, WPred.leaves] at h
        exact ⟨h.1, h.2 ▸ hm1, h.2 ▸ hm2, h.2 ▸ pyLower_ne_NA sl⟩
      · simp [sleeveLengthFilters, he, hmem, leavesList] at h

theorem itemLengthFilters_leafOK {il : Option String} {f v : String}
    (h : (f, v) ∈ leavesList (itemLengthFilters il)) :
    f = "item_length" ∧ v ∈ VALID_ITEM_LENGTHS ∧ v ≠ "n/a" ∧ v ≠ "N/A" := by
  rcases il with _ | il
  · simp [itemLengthFilters, leavesList] at h
  · by_cases he : il.isEmpty
    · simp [itemLengthFilters, he, leavesList] at h
    · by_cases hmem : (pyLower il ∈ VALID_ITEM_LENGTHS ∧ pyLower il ≠ "n/a")
      · obtain ⟨hm1, hm2⟩ := hmem
        simp [itemLengthFilters, he, hm1, hm2, leavesList, WPred.leaves] at h
        exact ⟨h.1, h.2 ▸ hm1, h.2 ▸ hm2, h.2 ▸ pyLower_ne_NA il⟩
      · simp [itemLengthFilters, he, hmem, leavesList] at h

/-- C8, counterexample: `color="N/A"` compiles to the equality leaf
`color == "n/a"` — the sentinel (lower-cased by the compiler) appears in the
compiled predicate, because the color block accepts any non-empty string. -/
theorem sentinel_color_counterexample :
    get_chromadb_filters none none none (some "N/A") none none none none =
      some (WPred.eq "color" "n/a") ∧
    ("color", "n/a") ∈ leavesOpt
      (get_chromadb_filters none none none (some "N/A") none none none none) :=
  ⟨rfl, by decide⟩

/-- C8 (amended): every equality leaf of a compiled predicate on the seven
enumerated fields carries a value from that field's valid set and never the
`"n/a"` / `"N/A"` sentinel; a `color` leaf carries exactly the lower-cased
input string (which may be anything non-empty, the sentinel included).
Compilation is total — an invalid value contributes nothing rather than
raising. -/
theorem compiled_leaves_valid (g mc sc c s sl il cat : Option String)
    (f v : String)
    (h : (f, v) ∈ leavesOpt (get_chromadb_filters g mc sc c s sl il cat)) :
    leafOK c (f, v) := by
  unfold get_chromadb_filters at h
  rw [leavesOpt_combine] at h
  unfold individual_filters at h
  simp only [leavesList_append, List.mem_append] at h
  unfold leafOK
  rcases h with ((((((h | h) | h) | h) | h) | h) | h) | h
  · exact Or.inl (genderFilters_leafOK h)
  · exact Or.inr (Or.inl (masterCategoryFilters_leafOK h))
  · exact Or.inr (Or.inr (Or.inl (categoryFilters_leafOK h)))
  · exact Or.inr (Or.inr (Or.inr (Or.inl (subcategoryFilters_leafOK h))))
  · exact Or.inr (Or.inr (Or.inr (Or.inr (Or.inr (Or.inr (Or.inr
      (colorFilters_leafOK h)))))))
  · exact Or.inr (Or.inr (Or.inr (Or.inr (Or.inl (seasonFilters_leafOK h)))))
  · exact Or.inr (Or.inr (Or.inr (Or.inr (Or.inr (Or.inl
      (sleeveLengthFilters_leafOK h))))))
  · exact Or.inr (Or.inr (Or.inr (Or.inr (Or.inr (Or.inr (Or.inl
      (itemLengthFilters_leafOK h)))))))

/-- C8 (amended), witness: the leaf produced by `gender="Male"` is a valid
lowercase gender value. -/
theorem compiled_leaves_valid_witness :
    leafOK none ("gender", "male") :=
  compiled_leaves_valid (some "Male") none none none none none none none
    "gender" "male" (by decide)

/-! ## Claim C9 -/

/-- C9: an absent or empty `user_query` is rejected with a 400 client error
before anything runs — zero embedding calls, zero store queries; and when the
collection is not initialized, `find_apparel` returns the store-unavailable
message, again with zero embedding calls. -/
theorem input_validation (r : FilterRequest) (storeInit : Bool)
    (embed : Except String Unit) (store : Store) :
    find_apparel_api none r storeInit embed store =
      (.error ⟨400, "Missing 'user_query' in parsed arguments"⟩, ⟨0, []⟩) ∧
    find_apparel_api (some "") r storeInit embed store =
      (.error ⟨400, "Missing 'user_query' in parsed arguments"⟩, ⟨0, []⟩) ∧
    find_apparel false embed store r =
      (⟨[], some "ChromaDB not initialized. Please run populate_chroma.py."⟩,
       ⟨0, []⟩) :=
  ⟨rfl, rfl, rfl⟩

/-! ## Claim C10 -/

/-- C10: `find_apparel` always returns a products-list dictionary and never
propagates a failure: either the outcome has no `message` (a success or a
valid empty result), or the products list is empty and the `message` is
exactly one of the five failure messages, each tied to the collaborator
failure that produced it. -/
theorem find_apparel_failure_shape (storeInit : Bool)
    (embed : Except String Unit) (store : Store) (r : FilterRequest) :
    (find_apparel storeInit embed store r).1.message = none ∨
    ((find_apparel storeInit embed store r).1.products = [] ∧
     ((find_apparel storeInit embed store r).1.message =
        some "ChromaDB not initialized. Please run populate_chroma.py." ∨
      (∃ e, embed = .error e ∧
        (find_apparel storeInit embed store r).1.message =
          some ("Error processing query: " ++ e)) ∨
      (∃ e, store (compileRequest r) = .error e ∧
        (find_apparel storeInit embed store r).1.message =
          some ("Error in Stage 1 search: " ++ e)) ∨
      (∃ e, store (stage2Filters r) = .error e ∧
        (find_apparel storeInit embed store r).1.message =
          some ("Error in Stage 2 search: " ++ e)) ∨
      (∃ e, store (stage3Filters r) = .error e ∧
        (find_apparel storeInit embed store r).1.message =
          some ("Error in Stage 3 search: " ++ e)))) := by
  cases storeInit with
  | false => exact Or.inr ⟨rfl, Or.inl rfl⟩
  | true =>
    cases embed with
    | error e => exact Or.inr ⟨rfl, Or.inr (Or.inl ⟨e, rfl, rfl⟩)⟩
    | ok u =>
      cases h1 : store (compileRequest r) with
      | error e =>
        right
        refine ⟨?_, Or.inr (Or.inr (Or.inl ⟨e, rfl, ?_⟩))⟩ <;>
          simp [find_apparel, h1]
      | ok res1 =>
        by_cases he1 : (extractProducts res1).isEmpty
        · by_cases hc : stage2cond r
          · cases h2 : store (stage2Filters r) with
            | error e =>
              right
              refine ⟨?_, Or.inr (Or.inr (Or.inr (Or.inl ⟨e, rfl, ?_⟩)))⟩ <;>
                simp [find_apparel, h1, he1, hc, h2]
            | ok res2 =>
              by_cases he2 : (extractProducts res2).isEmpty
              · have hred : find_apparel true (.ok ()) store r =
                    stage3Run r store
                      ⟨1, [(1, compileRequest r), (2, stage2Filters r)]⟩ := by
                  simp [find_apparel, h1, he1, hc, h2, he2]
                rw [hred]
                rcases stage3Run_outcome r store
                    ⟨1, [(1, compileRequest r), (2, stage2Filters r)]⟩ with
                  h3 | ⟨hp, e, hm, hs⟩
                · exact Or.inl h3
                · exact Or.inr ⟨hp, Or.inr (Or.inr (Or.inr (Or.inr
                    ⟨e, hs, hm⟩)))⟩
              · left
                simp [find_apparel, h1, he1, hc, h2, he2]
          · have hred : find_apparel true (.ok ()) store r =
                stage3Run r store ⟨1, [(1, compileRequest r)]⟩ := by
              simp [find_apparel, h1, he1, hc]
            rw [hred]
            rcases stage3Run_outcome r store ⟨1, [(1, compileRequest r)]⟩ with
              h3 | ⟨hp, e, hm, hs⟩
            · exact Or.inl h3
            · exact Or.inr ⟨hp, Or.inr (Or.inr (Or.inr (Or.inr ⟨e, hs, hm⟩)))⟩
        · left
          simp [find_apparel, h1, he1]
